import Mathlib

/-!
Verification of the restaurant website grader (Express backend, `server/index.js`).

The backend's only non-trivial logic is:
* `gradeWebsite($, bodyText, url, loadTime)` — the pure rule engine mapping
  extracted page signals to category scores, a 0–100-ish total and a
  severity-sorted issue list;
* `generateAIInsights(websiteData, issues)` — the optional Gemini fallback chain;
* the `POST /grade` handler — validation, scheme normalization, fetch, assembly.

The DOM queries (cheerio selectors) and the network are external inputs: a
`Page` record carries the result of every selector the code evaluates, plus the
lower-cased body text.  Everything computed *from* those inputs (substring
checks, the phone regex, score arithmetic, rounding, sorting, truncation,
normalization, the JSON parsing of model replies) is embedded as executable
Lean definitions translated from the JavaScript source.
-/

namespace Grader

/-- Issue severity, `type` in the source: "error" | "warning" | "info". -/
inductive Severity where
  | error
  | warning
  | info
deriving DecidableEq, Repr

/-- The sort rank from `const priority = { error: 0, warning: 1, info: 2 }`. -/
def priority : Severity → Nat
  | .error => 0
  | .warning => 1
  | .info => 2

/-- An issue as pushed by the category evaluators: `{ type, text }`. -/
structure Issue where
  type : Severity
  text : String
deriving DecidableEq, Repr

/-- An issue tagged with its category, as in `{ ...i, category: "SEO" }`. -/
structure CatIssue where
  type : Severity
  text : String
  category : String
deriving DecidableEq, Repr

/-! ## String helpers modelling the JavaScript string primitives -/

/-- Boolean list-prefix test (used to model JS `String.prototype` methods). -/
def isPrefixB : List Char → List Char → Bool
  | [], _ => true
  | _ :: _, [] => false
  | a :: as, b :: bs => a == b && isPrefixB as bs

/-- Boolean infix test: `pat` occurs contiguously somewhere in the list. -/
def isInfixB (pat : List Char) : List Char → Bool
  | [] => isPrefixB pat []
  | c :: rest => isPrefixB pat (c :: rest) || isInfixB pat rest

/-- Models JS `s.includes(pat)`: substring containment. -/
def includesSub (s pat : String) : Bool :=
  isInfixB pat.data s.data

/-- Models JS `s.startsWith(pre)`. -/
def jsStartsWith (s pre : String) : Bool :=
  isPrefixB pre.data s.data

/-- Models JS `s.substring(0, n)` (for the code's only use, start index 0). -/
def jsTake (s : String) (n : Nat) : String :=
  ⟨s.data.take n⟩

/-- Models JS `Math.round(num / den)` for nonnegative integers, i.e. rounding
the rational `num / den` half-up.  (The source computes with IEEE doubles; at
the operand sizes produced by the grader the float result never sits on the
other side of a rounding boundary for the quantities the claims mention.) -/
def jsRoundDiv (num den : Nat) : Nat :=
  (2 * num + den) / (2 * den)

/-- Models `(loadTime / 1000).toFixed(1)` for a nonnegative integer number of
milliseconds: seconds rounded half-up to one decimal place. -/
def toFixed1 (ms : Nat) : String :=
  let t := (ms + 50) / 100
  toString (t / 10) ++ "." ++ toString (t % 10)

/-! ## The phone-number regex

`/(\+?1?[-.\s]?\(?\d{3}\)?[-.\s]?\d{3}[-.\s]?\d{4})/.test(bodyText)` -/

/-- JS `\s` character class (ECMAScript WhiteSpace ∪ LineTerminator). -/
def isJsSpace (c : Char) : Bool :=
  c == ' ' || c == '\t' || c == '\n' || c.val == 11 || c.val == 12 ||
  c == '\r' || c.val == 160 || c.val == 5760 ||
  (8192 ≤ c.val && c.val ≤ 8202) || c.val == 8232 || c.val == 8233 ||
  c.val == 8239 || c.val == 8287 || c.val == 12288 || c.val == 65279

/-- The regex separator class `[-.\s]`. -/
def isSepChar (c : Char) : Bool :=
  c == '-' || c == '.' || isJsSpace c

/-- Consume exactly `n` decimal digits (`\d{n}`), returning the rest. -/
def digitsN : Nat → List Char → Option (List Char)
  | 0, cs => some cs
  | _ + 1, [] => none
  | n + 1, c :: cs => if c.isDigit then digitsN n cs else none

/-- Optional single-character regex element (`x?`) with backtracking: try
consuming a matching character, and also try not consuming. -/
def optCh (p : Char → Bool) (k : List Char → Bool) (cs : List Char) : Bool :=
  (match cs with
   | c :: rest => p c && k rest
   | [] => false) || k cs

/-- Tail of the phone pattern: `[-.\s]?\d{4}`. -/
def phoneTail3 (cs : List Char) : Bool :=
  optCh isSepChar (fun cs2 => (digitsN 4 cs2).isSome) cs

/-- Tail of the phone pattern: `\)?[-.\s]?\d{3}[-.\s]?\d{4}`. -/
def phoneTail2 (cs : List Char) : Bool :=
  optCh (· == ')')
    (fun cs2 =>
      optCh isSepChar
        (fun cs3 =>
          match digitsN 3 cs3 with
          | none => false
          | some cs4 => phoneTail3 cs4)
        cs2)
    cs

/-- Match the phone pattern anchored at the start of the character list. -/
def matchPhoneAt (cs : List Char) : Bool :=
  optCh (· == '+')
    (fun cs1 =>
      optCh (· == '1')
        (fun cs2 =>
          optCh isSepChar
            (fun cs3 =>
              optCh (· == '(')
                (fun cs4 =>
                  match digitsN 3 cs4 with
                  | none => false
                  | some cs5 => phoneTail2 cs5)
                cs3)
            cs2)
        cs1)
    cs

/-- Unanchored regex search, as JS `RegExp.prototype.test`. -/
def anyPosition (p : List Char → Bool) : List Char → Bool
  | [] => p []
  | c :: cs => p (c :: cs) || anyPosition p cs

/-- Models the phone-number regex test on the body text. -/
def phoneRegexTest (s : String) : Bool :=
  anyPosition matchPhoneAt s.data

/-! ## Extracted page signals

One field per cheerio query result the code evaluates, plus the lower-cased
body text the substring checks run against. -/

/-- The signals `gradeWebsite` reads from the parsed page. -/
structure Page where
  /-- `$('meta[name="description"]').attr("content") \|\| ""` -/
  description : String
  /-- `$("title").text() \|\| ""` -/
  title : String
  /-- `$("h1").length` -/
  h1Count : Nat
  /-- `$('link[rel="canonical"]').length > 0` -/
  hasCanonical : Bool
  /-- `$('meta[property="og:title"]').length > 0` -/
  hasOgTags : Bool
  /-- `$('a[href$=".pdf"]').length > 0` -/
  hasPdfLink : Bool
  /-- `$('a[href*="menu"]').length > 0` -/
  hasMenuLink : Bool
  /-- `$('img[alt*="menu"]').length > 0` -/
  hasMenuImgAlt : Bool
  /-- `$('a[href^="tel:"]').length > 0` -/
  hasTelLink : Bool
  /-- `$("img").length` -/
  imageCount : Nat
  /-- count of `img[alt]` whose trimmed alt text is nonempty -/
  imagesWithAlt : Nat
  /-- `$('a[href*="order"]').length > 0` -/
  hasOrderLink : Bool
  /-- `$('a[href*="doordash"]').length > 0` -/
  hasDoordashLink : Bool
  /-- `$('a[href*="ubereats"]').length > 0` -/
  hasUbereatsLink : Bool
  /-- `$('a[href*="grubhub"]').length > 0` -/
  hasGrubhubLink : Bool
  /-- `$('a[href*="opentable"]').length > 0` -/
  hasOpentableLink : Bool
  /-- `$('a[href*="resy"]').length > 0` -/
  hasResyLink : Bool
  /-- facebook.com \/ instagram.com \/ twitter.com \/ tiktok.com links -/
  hasFacebookLink : Bool
  hasInstagramLink : Bool
  hasTwitterLink : Bool
  hasTiktokLink : Bool
  /-- `$('iframe[src*="google.com/maps"]').length > 0` -/
  hasMapsIframe : Bool
  /-- `$('a[href*="maps.google"]').length > 0` -/
  hasMapsGoogleLink : Bool
  /-- `$('a[href*="goo.gl/maps"]').length > 0` -/
  hasGooGlMapsLink : Bool
  /-- `$('meta[name="viewport"]').length > 0` -/
  hasViewport : Bool
  /-- `$('link[rel="icon"]').length > 0` -/
  hasIconLink : Bool
  /-- `$('link[rel="shortcut icon"]').length > 0` -/
  hasShortcutIconLink : Bool
  /-- `$('script[type="application/ld+json"]').length > 0` -/
  hasStructuredData : Bool
  /-- `$("body").text().toLowerCase()` as passed by the handler -/
  bodyText : String
deriving DecidableEq, Repr

/-! ## Text-derived signals (the `const hasX = ...` bindings) -/

/-- `bodyText.includes("menu") \|\| $('a[href*="menu"]') \|\| $('img[alt*="menu"]')` -/
def hasMenuB (p : Page) : Bool :=
  includesSub p.bodyText "menu" || p.hasMenuLink || p.hasMenuImgAlt

/-- `bodyText.includes("hours") \|\| includes("open") \|\| includes("am") \|\| includes("pm")` -/
def hasHoursB (body : String) : Bool :=
  includesSub body "hours" || includesSub body "open" ||
  includesSub body "am" || includesSub body "pm"

/-- `bodyText.includes("address") \|\| includes("location") \|\| includes("street")` -/
def hasAddressB (body : String) : Bool :=
  includesSub body "address" || includesSub body "location" ||
  includesSub body "street"

/-- the phone regex test on the body text, or a `tel:` link -/
def hasPhoneB (p : Page) : Bool :=
  phoneRegexTest p.bodyText || p.hasTelLink

/-- ordering phrases in the text, or links to known delivery platforms -/
def hasOrderingB (p : Page) : Bool :=
  includesSub p.bodyText "order online" || includesSub p.bodyText "order now" ||
  p.hasOrderLink || p.hasDoordashLink || p.hasUbereatsLink || p.hasGrubhubLink

/-- reservation phrases in the text, or opentable / resy links -/
def hasReservationB (p : Page) : Bool :=
  includesSub p.bodyText "reserv" || includesSub p.bodyText "book a table" ||
  p.hasOpentableLink || p.hasResyLink

/-- any social platform link -/
def hasSocialB (p : Page) : Bool :=
  p.hasFacebookLink || p.hasInstagramLink || p.hasTwitterLink || p.hasTiktokLink

/-- an embedded or linked Google Maps reference -/
def hasGoogleMapsB (p : Page) : Bool :=
  p.hasMapsIframe || p.hasMapsGoogleLink || p.hasGooGlMapsLink

/-- `link[rel="icon"]` or `link[rel="shortcut icon"]` -/
def hasFaviconB (p : Page) : Bool :=
  p.hasIconLink || p.hasShortcutIconLink

/-! ## Issue texts with dynamic parts -/

/-- Warning text for an out-of-range title length. -/
def titleLenWarnText (n : Nat) : String :=
  "Title length (" ++ toString n ++ " chars) should be 30-60 characters"

/-- Warning text for an out-of-range meta description length. -/
def descLenWarnText (n : Nat) : String :=
  "Meta description (" ++ toString n ++ " chars) should be 120-160 characters"

/-- Warning text for multiple H1 tags. -/
def multiH1WarnText (n : Nat) : String :=
  "Multiple H1 tags found (" ++ toString n ++ ") - should have exactly 1"

/-- The rounded alt-text coverage percentage `Math.round((imagesWithAlt / imageCount) * 100)`. -/
def altPct (wa ic : Nat) : Nat :=
  jsRoundDiv (wa * 100) ic

/-- Warning text for low alt-text coverage. -/
def altWarnText (wa ic : Nat) : String :=
  "Only " ++ toString (altPct wa ic) ++ "% of images have alt text"

/-- Warning text for a slow load time, seconds to one decimal place. -/
def slowLoadWarnText (ms : Nat) : String :=
  "Slow load time (" ++ toFixed1 ms ++ "s) - aim for under 3 seconds"

/-- The error text emitted when no business-hours signal is found. -/
def hoursErrText : String :=
  "Business hours not found - customers need this!"

/-! ## The scoring clauses, one per `if` block of `gradeWebsite` -/

/-- SEO: page title length check (+8 / +4 + warning / error). -/
def titleClause (title : String) : Nat × List Issue :=
  if 30 ≤ title.length ∧ title.length ≤ 60 then (8, [])
  else if 0 < title.length then (4, [⟨.warning, titleLenWarnText title.length⟩])
  else (0, [⟨.error, "Missing page title"⟩])

/-- SEO: meta description length check (+8 / +4 + warning / error). -/
def descClause (d : String) : Nat × List Issue :=
  if 120 ≤ d.length ∧ d.length ≤ 160 then (8, [])
  else if 0 < d.length then (4, [⟨.warning, descLenWarnText d.length⟩])
  else (0, [⟨.error, "Missing meta description - hurts Google rankings"⟩])

/-- SEO: H1 count check (+6 / error / +3 + warning). -/
def h1Clause (n : Nat) : Nat × List Issue :=
  if n = 1 then (6, [])
  else if n = 0 then (0, [⟨.error, "Missing H1 heading"⟩])
  else (3, [⟨.warning, multiH1WarnText n⟩])

/-- SEO: canonical link check (+4 / info). -/
def canonicalClause (b : Bool) : Nat × List Issue :=
  if b then (4, []) else (0, [⟨.info, "No canonical URL set"⟩])

/-- SEO: Open Graph tags check (+4 / warning). -/
def ogClause (b : Bool) : Nat × List Issue :=
  if b then (4, [])
  else (0, [⟨.warning, "Missing Open Graph tags - social sharing won\x27t look good"⟩])

/-- Content: menu check (PDF → +2 + error; menu → +8; neither → warning). -/
def menuClause (hasPdf hasMenu : Bool) : Nat × List Issue :=
  if hasPdf then (2, [⟨.error, "PDF menu detected - hard for Google to read, bad on mobile"⟩])
  else if hasMenu then (8, [])
  else (0, [⟨.warning, "No menu found on homepage"⟩])

/-- Content: business-hours check (+5 / error). -/
def hoursClause (b : Bool) : Nat × List Issue :=
  if b then (5, []) else (0, [⟨.error, hoursErrText⟩])

/-- Content: address check (+4 / warning). -/
def addressClause (b : Bool) : Nat × List Issue :=
  if b then (4, []) else (0, [⟨.warning, "Address/location not clearly visible"⟩])

/-- Content: phone check (+4 / warning). -/
def phoneClause (b : Bool) : Nat × List Issue :=
  if b then (4, []) else (0, [⟨.warning, "Phone number not found"⟩])

/-- Content: image count and alt-text coverage check.  The coverage ratio is
only evaluated inside the `imageCount >= 5` branch; the `< 0.5` float
comparison of `imagesWithAlt / imageCount` is the exact rational comparison
`2 * wa < ic`. -/
def imagesClause (ic wa : Nat) : Nat × List Issue :=
  if 5 ≤ ic then
    (4, if 2 * wa < ic then [⟨.warning, altWarnText wa ic⟩] else [])
  else (0, [⟨.info, "Consider adding more food photos"⟩])

/-- Usability: online ordering check (+8 / error). -/
def orderingClause (b : Bool) : Nat × List Issue :=
  if b then (8, [])
  else (0, [⟨.error, "No online ordering option found - you\x27re losing sales!"⟩])

/-- Usability: reservation check (+5 / info). -/
def reservationClause (b : Bool) : Nat × List Issue :=
  if b then (5, []) else (0, [⟨.info, "No reservation system detected"⟩])

/-- Usability: social links check (+4 / warning). -/
def socialClause (b : Bool) : Nat × List Issue :=
  if b then (4, []) else (0, [⟨.warning, "No social media links found"⟩])

/-- Usability: clickable phone check (+4; else warning only if a phone number
exists at all; else nothing). -/
def clickablePhoneClause (clickable phone : Bool) : Nat × List Issue :=
  if clickable then (4, [])
  else if phone then (0, [⟨.warning, "Phone number not clickable on mobile"⟩])
  else (0, [])

/-- Usability: Google Maps check (+4 / info). -/
def mapsClause (b : Bool) : Nat × List Issue :=
  if b then (4, []) else (0, [⟨.info, "Consider embedding Google Maps"⟩])

/-- Technical: viewport meta check (+6 / error). -/
def viewportClause (b : Bool) : Nat × List Issue :=
  if b then (6, [])
  else (0, [⟨.error, "Not mobile-friendly - missing viewport meta tag"⟩])

/-- Technical: HTTPS check, `url.startsWith("https")` (+5 / error). -/
def httpsClause (url : String) : Nat × List Issue :=
  if jsStartsWith url "https" then (5, [])
  else (0, [⟨.error, "Site not secure (no HTTPS) - Google penalizes this"⟩])

/-- Technical: favicon check (+3 / info). -/
def faviconClause (b : Bool) : Nat × List Issue :=
  if b then (3, []) else (0, [⟨.info, "Missing favicon"⟩])

/-- Technical: structured-data check (+6 / warning). -/
def structuredClause (b : Bool) : Nat × List Issue :=
  if b then (6, [])
  else (0, [⟨.warning, "No structured data (Schema.org) - missing rich snippets in Google"⟩])

/-- Technical: load-time clause.  `if (loadTime && loadTime < 2000)` — the JS
truthiness test makes `loadTime = 0` skip the bonus; `else if (loadTime &&
loadTime > 5000)` emits the slow-load warning. -/
def loadTimeClause (loadTime : Nat) : Nat × List Issue :=
  if loadTime ≠ 0 ∧ loadTime < 2000 then (2, [])
  else if loadTime ≠ 0 ∧ 5000 < loadTime then
    (0, [⟨.warning, slowLoadWarnText loadTime⟩])
  else (0, [])

/-! ## Category evaluators -/

/-- SEO checks (declared maximum 30). -/
def seoEval (p : Page) : Nat × List Issue :=
  let t := titleClause p.title
  let d := descClause p.description
  let h := h1Clause p.h1Count
  let c := canonicalClause p.hasCanonical
  let o := ogClause p.hasOgTags
  (t.1 + d.1 + h.1 + c.1 + o.1, t.2 ++ d.2 ++ h.2 ++ c.2 ++ o.2)

/-- Content checks (declared maximum 25). -/
def contentEval (p : Page) : Nat × List Issue :=
  let m := menuClause p.hasPdfLink (hasMenuB p)
  let h := hoursClause (hasHoursB p.bodyText)
  let a := addressClause (hasAddressB p.bodyText)
  let ph := phoneClause (hasPhoneB p)
  let im := imagesClause p.imageCount p.imagesWithAlt
  (m.1 + h.1 + a.1 + ph.1 + im.1, m.2 ++ h.2 ++ a.2 ++ ph.2 ++ im.2)

/-- Usability checks (declared maximum 25). -/
def usabilityEval (p : Page) : Nat × List Issue :=
  let o := orderingClause (hasOrderingB p)
  let r := reservationClause (hasReservationB p)
  let s := socialClause (hasSocialB p)
  let c := clickablePhoneClause p.hasTelLink (hasPhoneB p)
  let m := mapsClause (hasGoogleMapsB p)
  (o.1 + r.1 + s.1 + c.1 + m.1, o.2 ++ r.2 ++ s.2 ++ c.2 ++ m.2)

/-- Technical checks other than load time. -/
def technicalBase (p : Page) (url : String) : Nat × List Issue :=
  let v := viewportClause p.hasViewport
  let h := httpsClause url
  let f := faviconClause (hasFaviconB p)
  let s := structuredClause p.hasStructuredData
  (v.1 + h.1 + f.1 + s.1, v.2 ++ h.2 ++ f.2 ++ s.2)

/-- Technical checks (declared maximum 20), load-time clause last. -/
def technicalEval (p : Page) (url : String) (loadTime : Nat) : Nat × List Issue :=
  let b := technicalBase p url
  let l := loadTimeClause loadTime
  (b.1 + l.1, b.2 ++ l.2)

/-! ## Issue collection and stable sort -/

/-- Tag each issue with its category name, as `results.x.issues.map(...)`. -/
def tagCat (c : String) (is : List Issue) : List CatIssue :=
  is.map (fun i => ⟨i.type, i.text, c⟩)

/-- The concatenation `[...seo, ...content, ...usability, ...technical]`
before sorting, in the category evaluation order of the source. -/
def allIssuesUnsorted (p : Page) (url : String) (loadTime : Nat) : List CatIssue :=
  tagCat "SEO" (seoEval p).2 ++ tagCat "Content" (contentEval p).2 ++
  tagCat "Usability" (usabilityEval p).2 ++
  tagCat "Technical" (technicalEval p url loadTime).2

/-- Stable insertion step for sorting by severity rank. -/
def insertIssue (a : CatIssue) : List CatIssue → List CatIssue
  | [] => [a]
  | b :: bs =>
    if priority a.type ≤ priority b.type then a :: b :: bs
    else b :: insertIssue a bs

/-- Stable sort by severity rank, modelling
`allIssues.sort((a, b) => priority[a.type] - priority[b.type])` — `Array.sort`
is guaranteed stable by the language specification (and by V8 in Node 20). -/
def sortIssues : List CatIssue → List CatIssue
  | [] => []
  | a :: rest => insertIssue a (sortIssues rest)

/-! ## The assembled grading result -/

/-- One `breakdown` entry: `{ score, maxScore, percentage }`. -/
structure CatBreak where
  score : Nat
  maxScore : Nat
  percentage : Nat
deriving DecidableEq, Repr

/-- The return value of `gradeWebsite`: total score, breakdown, sorted issues. -/
structure Report where
  score : Nat
  seo : CatBreak
  content : CatBreak
  usability : CatBreak
  technical : CatBreak
  issues : List CatIssue
deriving DecidableEq, Repr

/-- The grading function `gradeWebsite($, bodyText, url, loadTime)`. -/
def gradeWebsite (p : Page) (url : String) (loadTime : Nat) : Report :=
  let seo := seoEval p
  let content := contentEval p
  let usability := usabilityEval p
  let technical := technicalEval p url loadTime
  let totalScore := seo.1 + content.1 + usability.1 + technical.1
  let maxScore := 30 + 25 + 25 + 20
  { score := jsRoundDiv (totalScore * 100) maxScore
    seo := ⟨seo.1, 30, jsRoundDiv (seo.1 * 100) 30⟩
    content := ⟨content.1, 25, jsRoundDiv (content.1 * 100) 25⟩
    usability := ⟨usability.1, 25, jsRoundDiv (usability.1 * 100) 25⟩
    technical := ⟨technical.1, 20, jsRoundDiv (technical.1 * 100) 20⟩
    issues := sortIssues (allIssuesUnsorted p url loadTime) }

/-! ## JSON values and `JSON.parse`

`generateAIInsights` returns `JSON.parse(text)` verbatim, so the embedding
needs a JSON value type and a strict parser.  Numeric tokens are kept as their
raw text (`Json.num`); no claim inspects a number's value. -/

/-- A parsed JSON value. -/
inductive Json where
  | null
  | bool (b : Bool)
  | num (raw : String)
  | str (s : String)
  | arr (elems : List Json)
  | obj (fields : List (String × Json))

/-- Skip JSON whitespace (space, tab, line feed, carriage return). -/
def skipWs : List Char → List Char
  | c :: cs =>
    if c == ' ' || c == '\t' || c == '\n' || c == '\r' then skipWs cs
    else c :: cs
  | [] => []

/-- Hexadecimal digit value, by code point ranges. -/
def hexVal (c : Char) : Option Nat :=
  let n := c.toNat
  if 48 ≤ n ∧ n ≤ 57 then some (n - 48)
  else if 97 ≤ n ∧ n ≤ 102 then some (n - 87)
  else if 65 ≤ n ∧ n ≤ 70 then some (n - 55)
  else none

/-- Single-character JSON string escapes, as a lookup table. -/
def escChar : Char → Option Char
  | '"' => some '"'
  | '\\' => some '\\'
  | '/' => some '/'
  | 'b' => some (Char.ofNat 8)
  | 'f' => some (Char.ofNat 12)
  | 'n' => some '\n'
  | 'r' => some '\r'
  | 't' => some '\t'
  | _ => none

/-- Parse the remainder of a JSON string literal (after the opening quote),
returning its characters and the input after the closing quote.  Control
characters below U+0020 are rejected, as in `JSON.parse`.  (Astral characters
written as surrogate pairs are not recombined; no claim depends on them.) -/
def parseStrChars : Nat → List Char → Option (List Char × List Char)
  | 0, _ => none
  | _ + 1, [] => none
  | fuel + 1, c :: rest =>
    if c == '"' then some ([], rest)
    else if c == '\\' then
      match rest with
      | [] => none
      | e :: r2 =>
        if e == 'u' then
          match r2 with
          | h1 :: h2 :: h3 :: h4 :: r3 =>
            match hexVal h1, hexVal h2, hexVal h3, hexVal h4 with
            | some a, some b, some c2, some d =>
              (parseStrChars fuel r3).map
                (fun x => (Char.ofNat (((a * 16 + b) * 16 + c2) * 16 + d) :: x.1, x.2))
            | _, _, _, _ => none
          | _ => none
        else
          match escChar e with
          | some c2 => (parseStrChars fuel r2).map (fun x => (c2 :: x.1, x.2))
          | none => none
    else if c.toNat < 32 then none
    else (parseStrChars fuel rest).map (fun x => (c :: x.1, x.2))

/-- Take a maximal run of decimal digits. -/
def takeDigits : List Char → List Char × List Char
  | [] => ([], [])
  | c :: cs =>
    if c.isDigit then
      let r := takeDigits cs
      (c :: r.1, r.2)
    else ([], c :: cs)

/-- Parse an optional fraction part `.digits`. -/
def parseFrac : List Char → Option (List Char × List Char)
  | '.' :: r =>
    let t := takeDigits r
    if t.1.isEmpty then none else some ('.' :: t.1, t.2)
  | cs => some ([], cs)

/-- Parse an optional exponent part `[eE][+-]?digits`. -/
def parseExp : List Char → Option (List Char × List Char)
  | e :: r =>
    if e == 'e' || e == 'E' then
      match r with
      | s :: r2 =>
        if s == '+' || s == '-' then
          let t := takeDigits r2
          if t.1.isEmpty then none else some (e :: s :: t.1, t.2)
        else
          let t := takeDigits r
          if t.1.isEmpty then none else some (e :: t.1, t.2)
      | [] => none
    else some ([], e :: r)
  | [] => some ([], [])

/-- Parse a JSON number token, keeping its raw text. -/
def parseNumber (cs : List Char) : Option (Json × List Char) :=
  let sr : List Char × List Char :=
    match cs with
    | '-' :: r => (['-'], r)
    | _ => ([], cs)
  let ir := takeDigits sr.2
  if ir.1.isEmpty then none
  else if 1 < ir.1.length ∧ ir.1.head? == some '0' then none
  else
    match parseFrac ir.2 with
    | none => none
    | some (fracDs, cs3) =>
      match parseExp cs3 with
      | none => none
      | some (expDs, cs4) => some (Json.num ⟨sr.1 ++ ir.1 ++ fracDs ++ expDs⟩, cs4)

/-- Match a fixed keyword tail (`rue`, `alse`, `ull`). -/
def stripLit (lit : List Char) (cs : List Char) (v : Json) : Option (Json × List Char) :=
  if lit.isPrefixOf cs then some (v, cs.drop lit.length) else none

mutual

/-- Parse one JSON value (fuel-indexed; fuel only bounds recursion depth). -/
def parseVal : Nat → List Char → Option (Json × List Char)
  | 0, _ => none
  | fuel + 1, cs =>
    match skipWs cs with
    | [] => none
    | c :: rest =>
      if c == '"' then
        match parseStrChars (rest.length + 1) rest with
        | some (s, r) => some (Json.str ⟨s⟩, r)
        | none => none
      else if c == '\x7b' then parseObjBody fuel (skipWs rest)
      else if c == '[' then parseArrBody fuel (skipWs rest)
      else if c == 't' then stripLit ['r', 'u', 'e'] rest (Json.bool true)
      else if c == 'f' then stripLit ['a', 'l', 's', 'e'] rest (Json.bool false)
      else if c == 'n' then stripLit ['u', 'l', 'l'] rest Json.null
      else parseNumber (c :: rest)

/-- Parse an object body after the opening brace (input already ws-skipped). -/
def parseObjBody : Nat → List Char → Option (Json × List Char)
  | 0, _ => none
  | fuel + 1, cs =>
    match cs with
    | '\x7d' :: rest => some (Json.obj [], rest)
    | _ =>
      match parseMembers fuel cs with
      | some (fs, r) => some (Json.obj fs, r)
      | none => none

/-- Parse one or more `"key": value` members separated by commas. -/
def parseMembers : Nat → List Char → Option (List (String × Json) × List Char)
  | 0, _ => none
  | fuel + 1, cs =>
    match skipWs cs with
    | '"' :: rest =>
      match parseStrChars (rest.length + 1) rest with
      | none => none
      | some (k, r1) =>
        match skipWs r1 with
        | ':' :: r2 =>
          match parseVal fuel r2 with
          | none => none
          | some (v, r3) =>
            match skipWs r3 with
            | ',' :: r4 =>
              match parseMembers fuel r4 with
              | some (fs, r5) => some ((⟨k⟩, v) :: fs, r5)
              | none => none
            | '\x7d' :: r4 => some ([(⟨k⟩, v)], r4)
            | _ => none
        | _ => none
    | _ => none

/-- Parse an array body after the opening bracket (input already ws-skipped). -/
def parseArrBody : Nat → List Char → Option (Json × List Char)
  | 0, _ => none
  | fuel + 1, cs =>
    match cs with
    | ']' :: rest => some (Json.arr [], rest)
    | _ =>
      match parseItems fuel cs with
      | some (xs, r) => some (Json.arr xs, r)
      | none => none

/-- Parse one or more array items separated by commas. -/
def parseItems : Nat → List Char → Option (List Json × List Char)
  | 0, _ => none
  | fuel + 1, cs =>
    match parseVal fuel cs with
    | none => none
    | some (v, r1) =>
      match skipWs r1 with
      | ',' :: r2 =>
        match parseItems fuel r2 with
        | some (xs, r3) => some (v :: xs, r3)
        | none => none
      | ']' :: r2 => some ([v], r2)
      | _ => none

end

/-- Models `JSON.parse(s)`: the whole input must be one JSON value (three
fuel units per character over-approximate the recursion depth). -/
def jsonParse (s : String) : Option Json :=
  let cs := s.data
  match parseVal (3 * cs.length + 3) cs with
  | some (v, rest) => if (skipWs rest).isEmpty then some v else none
  | none => none

/-! ## The insight generator `generateAIInsights` -/

/-- Remove every occurrence of `tok` followed by an optional line feed,
modelling one global regex replace (fuel = input length suffices since each
step consumes at least one character). -/
def stripTokGo (tok : List Char) : Nat → List Char → List Char
  | 0, cs => cs
  | _ + 1, [] => []
  | fuel + 1, c :: rest =>
    if tok.isPrefixOf (c :: rest) then
      let after := (c :: rest).drop tok.length
      let after2 :=
        match after with
        | '\n' :: r => r
        | r => r
      stripTokGo tok fuel after2
    else c :: stripTokGo tok fuel rest

/-- Global replacement of `tok` (plus optional trailing line feed) by nothing. -/
def stripTokAll (tok : String) (s : List Char) : List Char :=
  stripTokGo tok.data (s.length + 1) s

/-- Drop leading JS whitespace characters. -/
def dropLeadingWs : List Char → List Char
  | [] => []
  | c :: cs => if isJsSpace c then dropLeadingWs cs else c :: cs

/-- Models JS `String.prototype.trim`: strip WhiteSpace and LineTerminator
characters from both ends. -/
def jsTrim (s : List Char) : List Char :=
  (dropLeadingWs ((dropLeadingWs s).reverse)).reverse

/-- Models the markdown-fence cleanup:
`text.replace(/```json\n?/g, "").replace(/```\n?/g, "").trim()`. -/
def cleanResponse (s : String) : String :=
  let cs := stripTokAll "```json" s.data
  let cs2 := stripTokAll "```" cs
  ⟨jsTrim cs2⟩

/-- The fixed fallback chain of model identifiers, in source order. -/
def modelNames : List String :=
  ["gemini-2.5-flash", "gemini-2.0-flash", "gemini-1.5-flash-latest", "gemini-pro"]

/-- One loop iteration: the model call (external, given by `replies` as the
raw reply text or a transport error) followed by fence cleanup and JSON
parsing.  Every failure mode is caught by the `try`/`catch` and yields
`none`, sending the loop to the next identifier. -/
def attemptModel (replies : String → Except String String) (name : String) : Option Json :=
  match replies name with
  | .error _ => none
  | .ok text => jsonParse (cleanResponse text)

/-- The fallback loop over a list of identifiers, also returning the list of
identifiers actually tried (in order), to state the no-call / call-order
facts. -/
def tryModelsT (replies : String → Except String String) :
    List String → Option Json × List String
  | [] => (none, [])
  | n :: ns =>
    match attemptModel replies n with
    | some v => (some v, [n])
    | none =>
      let r := tryModelsT replies ns
      (r.1, n :: r.2)

/-- `generateAIInsights`: `if (!genAI) return null` and otherwise the
fallback loop; the result is the parsed JSON of the first successful model,
returned without any shape validation. -/
def generateAIInsightsT (genAI : Bool) (replies : String → Except String String) :
    Option Json × List String :=
  if genAI then tryModelsT replies modelNames else (none, [])

/-- Association-list member lookup for JSON objects. -/
def lookupField : List (String × Json) → String → Option Json
  | [], _ => none
  | (k2, v) :: fs, k => if k2 == k then some v else lookupField fs k

/-- Field access on a JSON value. -/
def Json.getField : Json → String → Option Json
  | .obj fs, k => lookupField fs k
  | _, _ => none

/-- Length of the `quickWins` array of an insight value, when it is one. -/
def quickWinsLen (j : Json) : Option Nat :=
  match j.getField "quickWins" with
  | some (.arr xs) => some xs.length
  | _ => none

/-! ## The `POST /grade` handler -/

/-- The request body's `url` field as JavaScript sees it: absent, a string, or
a non-string value (truthy or falsy — both fail `!url \|\| typeof url !==
"string"`). -/
inductive UrlField where
  | missing
  | str (s : String)
  | nonStringTruthy
  | nonStringFalsy

/-- The 200 response body of the handler. -/
structure OkPayload where
  url : String
  score : Nat
  seo : CatBreak
  content : CatBreak
  usability : CatBreak
  technical : CatBreak
  issues : List CatIssue
  title : String
  loadTime : Nat
  aiInsights : Option Json

/-- The handler's response: 400, 500, or 200 with the payload. -/
inductive Resp where
  | badRequest (error : String)
  | serverError (error : String)
  | ok (payload : OkPayload)

/-- The handler's observable outcome: the response plus the list of URLs it
fetched (to state that validation failures perform no fetch). -/
structure HandleResult where
  resp : Resp
  fetchedUrls : List String

/-- Scheme normalization: `if (!url.startsWith("http")) url = "https://" + url`. -/
def normalizeUrl (u : String) : String :=
  if jsStartsWith u "http" then u else "https://" ++ u

/-- `isValidUrl`: builds `new URL(string.startsWith("http") ? string :
"https://" + string)` and reports whether the constructor succeeded;
`newURLOk` stands for the WHATWG `URL` constructor's success predicate. -/
def isValidUrl (newURLOk : String → Bool) (s : String) : Bool :=
  newURLOk (if jsStartsWith s "http" then s else "https://" ++ s)

/-- Scheme tail: letters, digits, `+`, `-`, `.` up to a mandatory colon.
Models the WHATWG URL grammar `[A-Za-z][A-Za-z0-9+.-]*:` that every input
accepted by the `URL` constructor must begin with. -/
def schemeRest : List Char → Bool
  | [] => false
  | c :: cs =>
    if c == ':' then true
    else (c.isAlpha || c.isDigit || c == '+' || c == '-' || c == '.') && schemeRest cs

/-- Whether a string begins with a URL scheme followed by a colon. -/
def hasSchemeB (s : String) : Bool :=
  match s.data with
  | [] => false
  | c :: cs => c.isAlpha && schemeRest cs

/-- A concrete stand-in for the `URL` constructor's success predicate, used
by witnesses: the string has a scheme and is not the bare `https://` (which
`new URL` rejects for lack of a host). -/
def urlOkModel (s : String) : Bool :=
  hasSchemeB s && !(s == "https://")

/-- The response's title field:
`title.substring(0, 60) + (title.length > 60 ? "..." : "")`. -/
def respTitle (t : String) : String :=
  jsTake t 60 ++ (if 60 < t.length then "..." else "")

/-- Assemble the 200 response from the grading report and the insights. -/
def assemble (url : String) (p : Page) (loadTime : Nat) (ai : Option Json) : OkPayload :=
  let r := gradeWebsite p url loadTime
  { url := url
    score := r.score
    seo := r.seo
    content := r.content
    usability := r.usability
    technical := r.technical
    issues := r.issues
    title := respTitle p.title
    loadTime := loadTime
    aiInsights := ai }

/-- The `POST /grade` handler.  `fetch` is the external page retrieval: it
either fails with an error message or yields the extracted page signals and
the measured load time. -/
def handleGrade (newURLOk : String → Bool)
    (fetch : String → Except String (Page × Nat))
    (genAI : Bool) (replies : String → Except String String)
    (body : UrlField) : HandleResult :=
  match body with
  | .missing => ⟨.badRequest "URL is required", []⟩
  | .nonStringTruthy => ⟨.badRequest "URL is required", []⟩
  | .nonStringFalsy => ⟨.badRequest "URL is required", []⟩
  | .str u =>
    if u == "" then ⟨.badRequest "URL is required", []⟩
    else if !isValidUrl newURLOk u then ⟨.badRequest "Invalid URL format", []⟩
    else
      let url := normalizeUrl u
      match fetch url with
      | .error msg => ⟨.serverError ("Could not scan site: " ++ msg), [url]⟩
      | .ok (p, lt) =>
        ⟨.ok (assemble url p lt (generateAIInsightsT genAI replies).1), [url]⟩

/-! ## Properties of the stable severity sort -/

/-- Membership through one stable-insertion step. -/
theorem mem_insertIssue {x a : CatIssue} {l : List CatIssue} :
    x ∈ insertIssue a l ↔ x = a ∨ x ∈ l := by
  induction l with
  | nil => simp [insertIssue]
  | cons b bs ih =>
    by_cases h : priority a.type ≤ priority b.type
    · simp [insertIssue, h]
    · simp only [insertIssue, if_neg h, List.mem_cons, ih]
      tauto

/-- Membership is preserved by the stable sort. -/
theorem mem_sortIssues {x : CatIssue} {l : List CatIssue} :
    x ∈ sortIssues l ↔ x ∈ l := by
  induction l with
  | nil => simp [sortIssues]
  | cons a as ih =>
    simp only [sortIssues, mem_insertIssue, ih, List.mem_cons]

/-- Inserting into a list sorted by severity rank keeps it sorted. -/
theorem pairwise_insertIssue {a : CatIssue} {l : List CatIssue}
    (h : l.Pairwise (fun x y => priority x.type ≤ priority y.type)) :
    (insertIssue a l).Pairwise (fun x y => priority x.type ≤ priority y.type) := by
  induction l with
  | nil => simp [insertIssue]
  | cons b bs ih =>
    rcases List.pairwise_cons.1 h with ⟨hb, hbs⟩
    by_cases hab : priority a.type ≤ priority b.type
    · rw [insertIssue, if_pos hab]
      refine List.pairwise_cons.2 ⟨?_, h⟩
      intro x hx
      rcases List.mem_cons.1 hx with rfl | hx
      · exact hab
      · exact Nat.le_trans hab (hb x hx)
    · rw [insertIssue, if_neg hab]
      refine List.pairwise_cons.2 ⟨?_, ih hbs⟩
      intro x hx
      rcases mem_insertIssue.1 hx with rfl | hx
      · exact Nat.le_of_lt (Nat.lt_of_not_le hab)
      · exact hb x hx

/-- The stable sort produces a list sorted by severity rank. -/
theorem pairwise_sortIssues (l : List CatIssue) :
    (sortIssues l).Pairwise (fun x y => priority x.type ≤ priority y.type) := by
  induction l with
  | nil => simp [sortIssues]
  | cons a as ih => exact pairwise_insertIssue ih

/-- Stability of one insertion step: restricted to any fixed severity rank,
inserting changes nothing relative to consing at the front. -/
theorem filter_insertIssue (k : Nat) (a : CatIssue) (l : List CatIssue) :
    (insertIssue a l).filter (fun i => priority i.type == k) =
      ((a :: l).filter (fun i => priority i.type == k)) := by
  induction l with
  | nil => rfl
  | cons b bs ih =>
    by_cases hab : priority a.type ≤ priority b.type
    · rw [insertIssue, if_pos hab]
    · rw [insertIssue, if_neg hab]
      have hlt : priority b.type < priority a.type := Nat.lt_of_not_le hab
      by_cases hbk : (priority b.type == k) = true
      · have hbk2 : priority b.type = k := eq_of_beq hbk
        have hak : (priority a.type == k) = false := by
          rw [Bool.eq_false_iff]
          intro hcon
          exact absurd (eq_of_beq hcon) (by omega)
        calc (b :: insertIssue a bs).filter (fun i => priority i.type == k)
            = b :: (insertIssue a bs).filter (fun i => priority i.type == k) := by
              simp [List.filter_cons, hbk]
          _ = b :: (a :: bs).filter (fun i => priority i.type == k) := by rw [ih]
          _ = b :: bs.filter (fun i => priority i.type == k) := by
              simp [List.filter_cons, hak]
          _ = (a :: b :: bs).filter (fun i => priority i.type == k) := by
              simp [List.filter_cons, hak, hbk]
      · calc (b :: insertIssue a bs).filter (fun i => priority i.type == k)
            = (insertIssue a bs).filter (fun i => priority i.type == k) := by
              simp [List.filter_cons, hbk]
          _ = (a :: bs).filter (fun i => priority i.type == k) := ih
          _ = (a :: b :: bs).filter (fun i => priority i.type == k) := by
              by_cases hak : (priority a.type == k) = true <;>
                simp [List.filter_cons, hak, hbk]

/-- Stability of the sort: restricted to any fixed severity rank, the sorted
list preserves the original order exactly. -/
theorem filter_sortIssues (k : Nat) (l : List CatIssue) :
    (sortIssues l).filter (fun i => priority i.type == k) =
      l.filter (fun i => priority i.type == k) := by
  induction l with
  | nil => rfl
  | cons a as ih =>
    rw [sortIssues, filter_insertIssue]
    by_cases h : (priority a.type == k) = true
    · simp only [List.filter_cons, h, ite_true, ih]
    · simp only [List.filter_cons, h, Bool.false_eq_true, ite_false, ih]

/-- The issues of a report are the stable sort of the tagged concatenation. -/
theorem gradeWebsite_issues (p : Page) (url : String) (loadTime : Nat) :
    (gradeWebsite p url loadTime).issues =
      sortIssues (allIssuesUnsorted p url loadTime) := rfl

/-- C2: for every input, the issues list returned by the rule engine is
sorted by ascending severity rank (error 0, warning 1, info 2), and among
issues of equal severity the original category evaluation order — the order
of `allIssuesUnsorted`, which concatenates SEO, Content, Usability, Technical
— is preserved (the filter at each severity rank is unchanged). -/
theorem c2_issues_sorted_stable (p : Page) (url : String) (loadTime : Nat) :
    ((gradeWebsite p url loadTime).issues).Pairwise
        (fun a b => priority a.type ≤ priority b.type) ∧
      ∀ k : Nat,
        ((gradeWebsite p url loadTime).issues).filter
            (fun i => priority i.type == k) =
          (allIssuesUnsorted p url loadTime).filter
            (fun i => priority i.type == k) := by
  constructor
  · rw [gradeWebsite_issues]
    exact pairwise_sortIssues _
  · intro k
    rw [gradeWebsite_issues]
    exact filter_sortIssues k _

/-! ## A concrete page achieving every scoring branch's maximum -/

/-- A page satisfying every check: title of 57 characters, description of 136
characters, one H1, all boolean signals present, body text containing the
menu / hours / address / ordering / reservation keywords and a phone number,
six images all with alt text. -/
def maxedPage : Page :=
  { description := "Family-owned Italian restaurant in Springfield serving wood-fired pizza, fresh pasta and local wine. Book a table or order online today."
    title := "Golden Fork - Authentic Italian Restaurant in Springfield"
    h1Count := 1
    hasCanonical := true
    hasOgTags := true
    hasPdfLink := false
    hasMenuLink := true
    hasMenuImgAlt := false
    hasTelLink := true
    imageCount := 6
    imagesWithAlt := 6
    hasOrderLink := true
    hasDoordashLink := false
    hasUbereatsLink := false
    hasGrubhubLink := false
    hasOpentableLink := true
    hasResyLink := false
    hasFacebookLink := true
    hasInstagramLink := false
    hasTwitterLink := false
    hasTiktokLink := false
    hasMapsIframe := true
    hasMapsGoogleLink := false
    hasGooGlMapsLink := false
    hasViewport := true
    hasIconLink := true
    hasShortcutIconLink := false
    hasStructuredData := true
    bodyText := "menu hours address 5551234567 order online reserv" }

set_option maxRecDepth 100000 in
/-- C1: the claimed invariant fails in the code.  On a page passing every
check over HTTPS with a 1000 ms load time, the Technical category accumulates
6 + 5 + 3 + 6 + 2 = 22 points against its declared `maxScore: 20` (the
load-time bonus overflows the maximum), its percentage is 110, and the
report's total score is 102 > 100. -/
theorem c1_technical_exceeds_max :
    (gradeWebsite maxedPage "https://goldenfork.example" 1000).technical.score = 22 ∧
    (gradeWebsite maxedPage "https://goldenfork.example" 1000).technical.maxScore = 20 ∧
    (gradeWebsite maxedPage "https://goldenfork.example" 1000).technical.percentage = 110 ∧
    (gradeWebsite maxedPage "https://goldenfork.example" 1000).score = 102 :=
  ⟨rfl, rfl, rfl, rfl⟩

/-! ## C6: the load-time clause -/

set_option maxRecDepth 100000 in
/-- C6 counterexample: at `loadTimeMs = 0` (which is smaller than 2000) the
claimed +2 bonus is not granted — JS `if (loadTime && loadTime < 2000)` is
false at 0 because `0` is falsy — while at 1999 ms the same page does get it
(technical score 22 versus 20). -/
theorem c6_zero_loadtime_counterexample :
    (0 : Nat) < 2000 ∧ loadTimeClause 0 = (0, []) ∧
    (gradeWebsite maxedPage "https://goldenfork.example" 0).technical.score = 20 ∧
    (gradeWebsite maxedPage "https://goldenfork.example" 1999).technical.score = 22 :=
  ⟨by decide, rfl, rfl, rfl⟩

/-- C6 amended: the +2 bonus is granted exactly for `0 < loadTimeMs < 2000`
(at exactly 0 the JS truthiness test skips it); `loadTimeMs > 5000` yields no
bonus and the slow-load warning reporting seconds to one decimal place;
between 2000 and 5000 ms (and at 0) neither bonus nor issue.  The clause's
points and issues are exactly what the Technical category adds after its base
checks. -/
theorem c6_loadtime_amended (p : Page) (url : String) (lt : Nat) :
    (lt = 0 → loadTimeClause lt = (0, [])) ∧
    (0 < lt → lt < 2000 → loadTimeClause lt = (2, [])) ∧
    (2000 ≤ lt → lt ≤ 5000 → loadTimeClause lt = (0, [])) ∧
    (5000 < lt → loadTimeClause lt = (0, [⟨.warning, slowLoadWarnText lt⟩])) ∧
    (gradeWebsite p url lt).technical.score =
      (technicalBase p url).1 + (loadTimeClause lt).1 ∧
    (technicalEval p url lt).2 = (technicalBase p url).2 ++ (loadTimeClause lt).2 := by
  refine ⟨?_, ?_, ?_, ?_, rfl, rfl⟩
  · intro h
    subst h
    rfl
  · intro h1 h2
    rw [loadTimeClause, if_pos ⟨by omega, h2⟩]
  · intro h1 h2
    rw [loadTimeClause, if_neg (by omega), if_neg (by omega)]
  · intro h
    rw [loadTimeClause, if_neg (by omega), if_pos ⟨by omega, h⟩]

/-- C6 witness: the amended clause evaluated at 0, 1, 3000 and 6000 ms. -/
theorem c6_loadtime_amended_witness :
    loadTimeClause 0 = (0, []) ∧ loadTimeClause 1 = (2, []) ∧
    loadTimeClause 3000 = (0, []) ∧
    loadTimeClause 6000 = (0, [⟨.warning, slowLoadWarnText 6000⟩]) :=
  ⟨(c6_loadtime_amended maxedPage "u" 0).1 rfl,
   (c6_loadtime_amended maxedPage "u" 1).2.1 (by decide) (by decide),
   (c6_loadtime_amended maxedPage "u" 3000).2.2.1 (by decide) (by decide),
   (c6_loadtime_amended maxedPage "u" 6000).2.2.2.1 (by decide)⟩

/-! ## C7: the response title truncation -/

/-- A 61-character page title. -/
def longTitle : String :=
  "Golden Fork Ristorante - Authentic Italian Dining in Downtown"

set_option maxRecDepth 100000 in
/-- C7 counterexample: the claim says the response title is at most 60
characters, but a 61-character page title produces a 63-character response
title — `substring(0, 60)` keeps 60 characters and then `"..."` is appended
on top. -/
theorem c7_title_counterexample :
    longTitle.length = 61 ∧
    (respTitle longTitle).length = 63 ∧
    ¬ (respTitle longTitle).length ≤ 60 ∧
    (assemble "https://x.example" { maxedPage with title := longTitle } 100 none).title
      = respTitle longTitle :=
  ⟨rfl, rfl, by decide, rfl⟩

/-- C7 amended: when the page title has at most 60 characters the response
title is the title itself; when it is longer, the response title is its first
60 characters with the three-character ellipsis appended, for a total of 63
characters — so the field is bounded by 63, not 60. -/
theorem c7_title_amended (t : String) :
    (t.length ≤ 60 → respTitle t = t) ∧
    (60 < t.length →
      respTitle t = jsTake t 60 ++ "..." ∧ (respTitle t).length = 63) ∧
    (respTitle t).length ≤ 63 := by
  obtain ⟨d⟩ := t
  have hlen : String.length ⟨d⟩ = d.length := rfl
  have htake : ∀ n : Nat, jsTake ⟨d⟩ n = ⟨d.take n⟩ := fun _ => rfl
  refine ⟨?_, ?_, ?_⟩
  · intro h
    rw [hlen] at h
    rw [respTitle, if_neg (by rw [hlen]; omega), htake]
    show String.mk (d.take 60 ++ []) = String.mk d
    rw [List.append_nil, List.take_of_length_le h]
  · intro h
    rw [hlen] at h
    constructor
    · rw [respTitle, if_pos (by rw [hlen]; omega)]
    · rw [respTitle, if_pos (by rw [hlen]; omega), String.length_append, htake]
      have h60 : String.length ⟨d.take 60⟩ = 60 := by
        show (d.take 60).length = 60
        rw [List.length_take]
        omega
      rw [h60]
      rfl
  · by_cases h : d.length ≤ 60
    · rw [respTitle, if_neg (by rw [hlen]; omega), htake, String.length_append]
      have : String.length ⟨d.take 60⟩ = min 60 d.length := by
        show (d.take 60).length = min 60 d.length
        rw [List.length_take]
      rw [this]
      have hz : String.length "" = 0 := rfl
      rw [hz]
      omega
    · rw [respTitle, if_pos (by rw [hlen]; omega), htake, String.length_append]
      have : String.length ⟨d.take 60⟩ = min 60 d.length := by
        show (d.take 60).length = min 60 d.length
        rw [List.length_take]
      rw [this]
      have hz : String.length "..." = 3 := rfl
      rw [hz]
      omega

set_option maxRecDepth 10000 in
/-- C7 witness: the amended truncation rule at a short and a long title. -/
theorem c7_title_amended_witness :
    respTitle "Golden Fork" = "Golden Fork" ∧
    (respTitle longTitle = jsTake longTitle 60 ++ "..." ∧
      (respTitle longTitle).length = 63) ∧
    (respTitle longTitle).length ≤ 63 :=
  ⟨(c7_title_amended "Golden Fork").1 (by decide),
   (c7_title_amended longTitle).2.1 (by decide),
   (c7_title_amended longTitle).2.2⟩

/-! ## C10: the alt-coverage guard and percentage bound -/

/-- C10: the alt-coverage ratio is evaluated only inside the
`imageCount >= 5` branch (below 5 images only the info issue appears, and no
percentage is computed), and since the extractor counts `imagesWithAlt` among
the counted images (`imagesWithAlt ≤ imageCount`), the rounded percentage in
the warning is at most 100. -/
theorem c10_alt_guard_and_bound (ic wa : Nat) :
    (ic < 5 →
      imagesClause ic wa = (0, [⟨.info, "Consider adding more food photos"⟩])) ∧
    (5 ≤ ic →
      (imagesClause ic wa).1 = 4 ∧
      (2 * wa < ic → (imagesClause ic wa).2 = [⟨.warning, altWarnText wa ic⟩]) ∧
      (ic ≤ 2 * wa → (imagesClause ic wa).2 = [])) ∧
    (wa ≤ ic → altPct wa ic ≤ 100) := by
  refine ⟨?_, ?_, ?_⟩
  · intro h
    rw [imagesClause, if_neg (by omega)]
  · intro h
    refine ⟨?_, ?_, ?_⟩
    · rw [imagesClause, if_pos h]
    · intro h2
      rw [imagesClause, if_pos h]
      show (if 2 * wa < ic then _ else _) = _
      rw [if_pos h2]
    · intro h2
      rw [imagesClause, if_pos h]
      show (if 2 * wa < ic then _ else _) = _
      rw [if_neg (by omega)]
  · intro hw
    by_cases hic : ic = 0
    · subst hic
      have : wa = 0 := by omega
      subst this
      decide
    · have hpos : 0 < 2 * ic := by omega
      have hdiv : (2 * (wa * 100) + ic) / (2 * ic) < 101 :=
        (Nat.div_lt_iff_lt_mul hpos).2 (by omega)
      show (2 * (wa * 100) + ic) / (2 * ic) ≤ 100
      omega

/-- C10 witness: the guard and bound at concrete image counts. -/
theorem c10_alt_guard_and_bound_witness :
    imagesClause 4 0 = (0, [⟨.info, "Consider adding more food photos"⟩]) ∧
    (imagesClause 5 2).1 = 4 ∧
    (imagesClause 5 2).2 = [⟨.warning, altWarnText 2 5⟩] ∧
    (imagesClause 5 4).2 = [] ∧
    altPct 2 5 ≤ 100 :=
  ⟨(c10_alt_guard_and_bound 4 0).1 (by decide),
   ((c10_alt_guard_and_bound 5 2).2.1 (by decide)).1,
   ((c10_alt_guard_and_bound 5 2).2.1 (by decide)).2.1 (by decide),
   ((c10_alt_guard_and_bound 5 4).2.1 (by decide)).2.2 (by decide),
   (c10_alt_guard_and_bound 5 2).2.2 (by decide)⟩

/-! ## C4: the insight generator degrades, never fails -/

/-- The fallback loop returns the first successful attempt, having tried
exactly the failing prefix before it. -/
theorem tryModelsT_first_success (replies : String → Except String String)
    (n : String) (v : Json) (post : List String) :
    ∀ pre : List String, (∀ m ∈ pre, attemptModel replies m = none) →
      attemptModel replies n = some v →
      tryModelsT replies (pre ++ n :: post) = (some v, pre ++ [n])
  | [], _, hn => by
    simp [tryModelsT, hn]
  | a :: as, hpre, hn => by
    have ha : attemptModel replies a = none := hpre a (List.mem_cons_self a as)
    have ih := tryModelsT_first_success replies n v post as
      (fun m hm => hpre m (List.mem_cons_of_mem a hm)) hn
    simp [tryModelsT, ha, ih]

/-- If every attempt fails, the loop returns none after trying the whole
list in order. -/
theorem tryModelsT_all_fail (replies : String → Except String String) :
    ∀ ms : List String, (∀ m ∈ ms, attemptModel replies m = none) →
      tryModelsT replies ms = (none, ms)
  | [], _ => rfl
  | a :: as, hall => by
    have ha : attemptModel replies a = none := hall a (List.mem_cons_self a as)
    have ih := tryModelsT_all_fail replies as
      (fun m hm => hall m (List.mem_cons_of_mem a hm))
    simp [tryModelsT, ha, ih]

/-- C4: the insight generator is a total function into `Option` — every
per-model transport or parse failure is caught inside `attemptModel`.  With
no credential it returns none immediately and calls no model; with a
credential it tries the identifiers in their fixed order and returns the
first successfully parsed result, or none (not an error) when every
identifier fails; and whenever the fetch succeeded the handler still
responds 200 with the scoring payload, whatever the model replies were. -/
theorem c4_insights_never_fail :
    (∀ replies, generateAIInsightsT false replies = (none, [])) ∧
    (∀ replies (pre : List String) (n : String) (post : List String) (v : Json),
      modelNames = pre ++ n :: post →
      (∀ m ∈ pre, attemptModel replies m = none) →
      attemptModel replies n = some v →
      generateAIInsightsT true replies = (some v, pre ++ [n])) ∧
    (∀ replies, (∀ m ∈ modelNames, attemptModel replies m = none) →
      generateAIInsightsT true replies = (none, modelNames)) ∧
    (∀ (newURLOk : String → Bool) (fetch : String → Except String (Page × Nat))
      (genAI : Bool) (replies : String → Except String String)
      (u : String) (p : Page) (lt : Nat),
      isValidUrl newURLOk u = true → u ≠ "" →
      fetch (normalizeUrl u) = Except.ok (p, lt) →
      (handleGrade newURLOk fetch genAI replies (.str u)).resp =
        .ok (assemble (normalizeUrl u) p lt (generateAIInsightsT genAI replies).1)) := by
  refine ⟨fun _ => rfl, ?_, ?_, ?_⟩
  · intro replies pre n post v hsplit hpre hn
    rw [generateAIInsightsT, if_pos rfl, hsplit]
    exact tryModelsT_first_success replies n v post pre hpre hn
  · intro replies hall
    rw [generateAIInsightsT, if_pos rfl]
    exact tryModelsT_all_fail replies modelNames hall
  · intro newURLOk fetch genAI replies u p lt hvalid hne hfetch
    have hbe : (u == "") = false := beq_eq_false_iff_ne.2 hne
    simp only [handleGrade, hbe, Bool.false_eq_true, if_false, hvalid,
      Bool.not_true, hfetch]

/-- A reply function whose every call fails with a transport error. -/
def repliesAllFail : String → Except String String :=
  fun _ => Except.error "429 Too Many Requests"

/-- A reply function failing on the first identifier and answering raw JSON
on the others. -/
def repliesSecondOk : String → Except String String :=
  fun m =>
    if m == "gemini-2.5-flash" then Except.error "404 model not found"
    else Except.ok "\x7b\"message\": \"Hello\"\x7d"

/-- The parsed value of `repliesSecondOk`'s JSON reply. -/
def helloJson : Json := Json.obj [("message", Json.str "Hello")]

set_option maxRecDepth 1000000 in
/-- C4 witness: the generator at concrete reply functions — no credential,
second-model success, all-fail, and the 200 response with failing replies. -/
theorem c4_insights_never_fail_witness :
    generateAIInsightsT false repliesAllFail = (none, []) ∧
    generateAIInsightsT true repliesSecondOk =
      (some helloJson, ["gemini-2.5-flash", "gemini-2.0-flash"]) ∧
    generateAIInsightsT true repliesAllFail = (none, modelNames) ∧
    (handleGrade (fun s => hasSchemeB s) (fun _ => Except.ok (maxedPage, 1200))
        true repliesAllFail (.str "example.com")).resp =
      .ok (assemble (normalizeUrl "example.com") maxedPage 1200
        (generateAIInsightsT true repliesAllFail).1) := by
  refine ⟨c4_insights_never_fail.1 repliesAllFail, ?_, ?_, ?_⟩
  · exact c4_insights_never_fail.2.1 repliesSecondOk ["gemini-2.5-flash"]
      "gemini-2.0-flash" ["gemini-1.5-flash-latest", "gemini-pro"] helloJson rfl
      (by
        intro m hm
        rw [List.mem_singleton.1 hm]
        rfl)
      rfl
  · exact c4_insights_never_fail.2.2.1 repliesAllFail (fun m _ => rfl)
  · exact c4_insights_never_fail.2.2.2 (fun s => hasSchemeB s)
      (fun _ => Except.ok (maxedPage, 1200)) true repliesAllFail
      "example.com" maxedPage 1200 (by decide) (by decide) rfl

/-! ## C5: quickWins is returned unvalidated -/

/-- A model reply whose `quickWins` array has only 2 entries. -/
def quickWins2Reply : String :=
  "\x7b\"summary\":\"ok\",\"topPriority\":\"fix\",\"quickWins\":[\"a\",\"b\"],\"competitorTip\":\"tip\",\"estimatedImpact\":\"20-30%\"\x7d"

/-- A reply function always answering `quickWins2Reply`. -/
def repliesQuickWins2 : String → Except String String :=
  fun _ => Except.ok quickWins2Reply

/-- The parsed value of `quickWins2Reply`. -/
def quickWins2Json : Json :=
  Json.obj [("summary", Json.str "ok"), ("topPriority", Json.str "fix"),
    ("quickWins", Json.arr [Json.str "a", Json.str "b"]),
    ("competitorTip", Json.str "tip"),
    ("estimatedImpact", Json.str "20-30%")]

set_option maxRecDepth 1000000 in
/-- C5 counterexample: the generator returns `JSON.parse(text)` without any
shape validation, so a model reply whose quickWins has 2 entries yields a
present insight value whose quickWins field has 2 entries, not 3. -/
theorem c5_quickwins_counterexample :
    (generateAIInsightsT true repliesQuickWins2).1 = some quickWins2Json ∧
    ((generateAIInsightsT true repliesQuickWins2).1.bind quickWinsLen) = some 2 :=
  ⟨rfl, rfl⟩

/-- The fallback loop only returns values produced by one of its attempts. -/
theorem tryModelsT_mem_of_some (replies : String → Except String String)
    (v : Json) :
    ∀ ms : List String, (tryModelsT replies ms).1 = some v →
      ∃ n ∈ ms, attemptModel replies n = some v
  | [], h => by simp [tryModelsT] at h
  | a :: as, h => by
    by_cases ha : (attemptModel replies a).isSome
    · rw [tryModelsT] at h
      obtain ⟨w, hw⟩ := Option.isSome_iff_exists.1 ha
      rw [hw] at h
      simp at h
      exact ⟨a, List.mem_cons_self a as, by rw [hw, h]⟩
    · rw [tryModelsT] at h
      rw [Option.not_isSome_iff_eq_none.1 ha] at h
      simp at h
      obtain ⟨n, hn, hv⟩ := tryModelsT_mem_of_some replies v as h
      exact ⟨n, List.mem_cons_of_mem a hn, hv⟩

/-- C5 amended: whenever the generator returns a present value, that value is
verbatim the parsed JSON of some model's (the first successful) cleaned
reply; `quickWins` therefore has exactly 3 entries only when the reply's
parsed JSON does — the prompt requests 3 but the code enforces nothing. -/
theorem c5_quickwins_amended (replies : String → Except String String) (v : Json)
    (h : (generateAIInsightsT true replies).1 = some v) :
    ∃ n ∈ modelNames, attemptModel replies n = some v := by
  rw [generateAIInsightsT, if_pos rfl] at h
  exact tryModelsT_mem_of_some replies v modelNames h

set_option maxRecDepth 1000000 in
/-- C5 witness: the amended statement applied to the 2-entry reply function. -/
theorem c5_quickwins_amended_witness :
    ∃ n ∈ modelNames, attemptModel repliesQuickWins2 n = some quickWins2Json :=
  c5_quickwins_amended repliesQuickWins2 quickWins2Json rfl

/-! ## C3 and C8: the handler's responses and URL normalization -/

/-- A prefix match at the head of a list is in particular an infix match. -/
theorem isInfixB_of_isPrefixB {p s : List Char} (h : isPrefixB p s = true) :
    isInfixB p s = true := by
  cases s with
  | nil => simpa [isInfixB] using h
  | cons c t => simp [isInfixB, h]

/-- A list is a prefix of itself followed by anything. -/
theorem isPrefixB_append (p rest : List Char) : isPrefixB p (p ++ rest) = true := by
  induction p with
  | nil => rfl
  | cons c cs ih => simp [isPrefixB, ih]

/-- Every 500 message contains the phrase "Could not scan site". -/
theorem includesSub_scan_phrase (msg : String) :
    includesSub ("Could not scan site: " ++ msg) "Could not scan site" = true := by
  rw [includesSub, String.data_append]
  apply isInfixB_of_isPrefixB
  have h : "Could not scan site: ".data =
      "Could not scan site".data ++ [':', ' '] := rfl
  rw [h, List.append_assoc]
  exact isPrefixB_append _ _

/-- A url accepted by validation is nonempty, since `new URL("https://")`
fails (`hempty`): the empty string would validate `"https://" ++ "" =
"https://"`. -/
theorem valid_ne_empty (newURLOk : String → Bool)
    (hempty : newURLOk "https://" = false) (u : String)
    (hu : isValidUrl newURLOk u = true) : (u == "") = false := by
  rw [Bool.eq_false_iff]
  intro hcon
  have hu0 : u = "" := eq_of_beq hcon
  subst hu0
  rw [isValidUrl] at hu
  have h1 : jsStartsWith "" "http" = false := rfl
  rw [if_neg (by simp [h1])] at hu
  have h2 : ("https://" ++ "" : String) = "https://" := rfl
  rw [h2, hempty] at hu
  exact Bool.false_ne_true hu

/-- C3: for every audit request, a missing or non-string url field responds
400 with an error and no fetch; a url failing the syntax validation responds
400 with an error and no fetch; when the fetch of the normalized url fails
(for example with a DNS-resolution error message) the handler responds 500
with an error message containing the phrase "Could not scan site"; otherwise
it responds 200 with the score/breakdown/issues payload.  `hempty` records
the library fact that `new URL("https://")` throws. -/
theorem c3_handler_responses (newURLOk : String → Bool)
    (fetch : String → Except String (Page × Nat)) (genAI : Bool)
    (replies : String → Except String String)
    (hempty : newURLOk "https://" = false) :
    (∀ b : UrlField, b = .missing ∨ b = .nonStringTruthy ∨ b = .nonStringFalsy →
      handleGrade newURLOk fetch genAI replies b =
        ⟨.badRequest "URL is required", []⟩) ∧
    (∀ u : String, isValidUrl newURLOk u = false →
      ∃ e, handleGrade newURLOk fetch genAI replies (.str u) =
        ⟨.badRequest e, []⟩) ∧
    (∀ u msg, isValidUrl newURLOk u = true →
      fetch (normalizeUrl u) = Except.error msg →
      handleGrade newURLOk fetch genAI replies (.str u) =
        ⟨.serverError ("Could not scan site: " ++ msg), [normalizeUrl u]⟩ ∧
      includesSub ("Could not scan site: " ++ msg) "Could not scan site" = true) ∧
    (∀ u p lt, isValidUrl newURLOk u = true →
      fetch (normalizeUrl u) = Except.ok (p, lt) →
      handleGrade newURLOk fetch genAI replies (.str u) =
        ⟨.ok (assemble (normalizeUrl u) p lt (generateAIInsightsT genAI replies).1),
         [normalizeUrl u]⟩) := by
  refine ⟨?_, ?_, ?_, ?_⟩
  · intro b hb
    rcases hb with rfl | rfl | rfl <;> rfl
  · intro u hu
    by_cases he : (u == "") = true
    · exact ⟨"URL is required", by simp [handleGrade, he]⟩
    · have he2 : (u == "") = false := by rwa [Bool.not_eq_true] at he
      exact ⟨"Invalid URL format", by simp [handleGrade, he2, hu]⟩
  · intro u msg hu hf
    have he := valid_ne_empty newURLOk hempty u hu
    exact ⟨by simp [handleGrade, he, hu, hf], includesSub_scan_phrase msg⟩
  · intro u p lt hu hf
    have he := valid_ne_empty newURLOk hempty u hu
    simp [handleGrade, he, hu, hf]

/-- A fetch oracle that fails with a DNS error for one host and succeeds for
every other URL. -/
def fetchWitness : String → Except String (Page × Nat) :=
  fun s =>
    if s == "https://bad.example" then
      Except.error "getaddrinfo ENOTFOUND bad.example"
    else Except.ok (maxedPage, 1200)

set_option maxRecDepth 1000000 in
/-- C3 witness: the handler at a missing field, an invalid url
(`"httpfoo"` starts with "http" but is not a parsable URL), a DNS failure,
and a successful fetch. -/
theorem c3_handler_responses_witness :
    handleGrade urlOkModel fetchWitness true repliesAllFail .missing =
      ⟨.badRequest "URL is required", []⟩ ∧
    (∃ e, handleGrade urlOkModel fetchWitness true repliesAllFail (.str "httpfoo") =
      ⟨.badRequest e, []⟩) ∧
    (handleGrade urlOkModel fetchWitness true repliesAllFail (.str "bad.example") =
      ⟨.serverError ("Could not scan site: " ++ "getaddrinfo ENOTFOUND bad.example"),
       [normalizeUrl "bad.example"]⟩ ∧
     includesSub ("Could not scan site: " ++ "getaddrinfo ENOTFOUND bad.example")
       "Could not scan site" = true) ∧
    handleGrade urlOkModel fetchWitness true repliesAllFail
        (.str "https://good.example") =
      ⟨.ok (assemble (normalizeUrl "https://good.example") maxedPage 1200
        (generateAIInsightsT true repliesAllFail).1),
       [normalizeUrl "https://good.example"]⟩ := by
  have h := c3_handler_responses urlOkModel fetchWitness true repliesAllFail
    (by decide)
  exact ⟨h.1 .missing (Or.inl rfl),
    h.2.1 "httpfoo" (by decide),
    h.2.2.1 "bad.example" "getaddrinfo ENOTFOUND bad.example" (by decide) rfl,
    h.2.2.2 "https://good.example" maxedPage 1200 (by decide) rfl⟩

/-- C8: for every accepted request url (validation passed, with `newURLOk`
sound for the scheme grammar and rejecting the bare `"https://"`), the
handler fetches exactly the scheme-normalized URL; `https://` is prepended
whenever the input lacks a scheme; and on success the response's url field is
that normalized URL, not the raw input. -/
theorem c8_url_normalization (newURLOk : String → Bool)
    (hsound : ∀ s, newURLOk s = true → hasSchemeB s = true)
    (hempty : newURLOk "https://" = false)
    (fetch : String → Except String (Page × Nat)) (genAI : Bool)
    (replies : String → Except String String) (u : String)
    (hvalid : isValidUrl newURLOk u = true) :
    (hasSchemeB u = false → normalizeUrl u = "https://" ++ u) ∧
    (handleGrade newURLOk fetch genAI replies (.str u)).fetchedUrls =
      [normalizeUrl u] ∧
    (∀ p lt, fetch (normalizeUrl u) = Except.ok (p, lt) →
      (handleGrade newURLOk fetch genAI replies (.str u)).resp =
        .ok (assemble (normalizeUrl u) p lt (generateAIInsightsT genAI replies).1) ∧
      (assemble (normalizeUrl u) p lt (generateAIInsightsT genAI replies).1).url =
        normalizeUrl u) := by
  have hne := valid_ne_empty newURLOk hempty u hvalid
  refine ⟨?_, ?_, ?_⟩
  · intro hns
    rw [normalizeUrl]
    by_cases hsw : jsStartsWith u "http" = true
    · rw [isValidUrl, if_pos hsw] at hvalid
      exact absurd (hsound u hvalid) (by simp [hns])
    · have hsw2 : jsStartsWith u "http" = false := by
        rwa [Bool.not_eq_true] at hsw
      rw [if_neg (by simp [hsw2])]
  · cases hf : fetch (normalizeUrl u) with
    | error msg => simp [handleGrade, hne, hvalid, hf]
    | ok pl =>
      obtain ⟨p, lt⟩ := pl
      simp [handleGrade, hne, hvalid, hf]
  · intro p lt hf
    exact ⟨by simp [handleGrade, hne, hvalid, hf], rfl⟩

set_option maxRecDepth 1000000 in
/-- C8 witness: the bare domain `"example.com"` (no scheme) is prepended with
`https://`, fetched under the normalized URL, and echoed back normalized. -/
theorem c8_url_normalization_witness :
    normalizeUrl "example.com" = "https://" ++ "example.com" ∧
    (handleGrade urlOkModel (fun _ => Except.ok (maxedPage, 800)) false
        repliesAllFail (.str "example.com")).fetchedUrls =
      [normalizeUrl "example.com"] ∧
    ((handleGrade urlOkModel (fun _ => Except.ok (maxedPage, 800)) false
        repliesAllFail (.str "example.com")).resp =
      .ok (assemble (normalizeUrl "example.com") maxedPage 800
        (generateAIInsightsT false repliesAllFail).1) ∧
     (assemble (normalizeUrl "example.com") maxedPage 800
        (generateAIInsightsT false repliesAllFail).1).url =
      normalizeUrl "example.com") := by
  have h := c8_url_normalization urlOkModel
    (by
      intro s hs
      simp [urlOkModel] at hs
      exact hs.1)
    (by decide) (fun _ => Except.ok (maxedPage, 800)) false repliesAllFail
    "example.com" (by decide)
  exact ⟨h.1 (by decide), h.2.1, h.2.2 maxedPage 800 rfl⟩

/-! ## C9: substring-based hours detection -/

/-- Strings with different first characters are different. -/
theorem ne_of_data_head {s t : String} (h : s.data.head? ≠ t.data.head?) :
    s ≠ t :=
  fun he => h (by rw [he])

/-- The first character of `(a ++ b) ++ c` is the first character of `a`. -/
theorem head_append3 (a b c : String) (ch : Char)
    (h : a.data.head? = some ch) : ((a ++ b) ++ c).data.head? = some ch := by
  rw [String.data_append, String.data_append]
  cases hd : a.data with
  | nil => rw [hd] at h; cases h
  | cons x xs =>
    rw [hd] at h
    injection h with h
    subst h
    simp [List.cons_append]

/-- The title-length warning never reads as the hours error. -/
theorem titleLenWarnText_ne_hours (n : Nat) :
    titleLenWarnText n ≠ hoursErrText := by
  apply ne_of_data_head
  have h1 : (titleLenWarnText n).data.head? = some 'T' :=
    head_append3 "Title length (" (toString n)
      " chars) should be 30-60 characters" 'T' rfl
  have h2 : hoursErrText.data.head? = some 'B' := rfl
  rw [h1, h2]
  simp

/-- The description-length warning never reads as the hours error. -/
theorem descLenWarnText_ne_hours (n : Nat) :
    descLenWarnText n ≠ hoursErrText := by
  apply ne_of_data_head
  have h1 : (descLenWarnText n).data.head? = some 'M' :=
    head_append3 "Meta description (" (toString n)
      " chars) should be 120-160 characters" 'M' rfl
  have h2 : hoursErrText.data.head? = some 'B' := rfl
  rw [h1, h2]
  simp

/-- The multiple-H1 warning never reads as the hours error. -/
theorem multiH1WarnText_ne_hours (n : Nat) :
    multiH1WarnText n ≠ hoursErrText := by
  apply ne_of_data_head
  have h1 : (multiH1WarnText n).data.head? = some 'M' :=
    head_append3 "Multiple H1 tags found (" (toString n)
      ") - should have exactly 1" 'M' rfl
  have h2 : hoursErrText.data.head? = some 'B' := rfl
  rw [h1, h2]
  simp

/-- The alt-coverage warning never reads as the hours error. -/
theorem altWarnText_ne_hours (wa ic : Nat) :
    altWarnText wa ic ≠ hoursErrText := by
  apply ne_of_data_head
  have h1 : (altWarnText wa ic).data.head? = some 'O' :=
    head_append3 "Only " (toString (altPct wa ic))
      "% of images have alt text" 'O' rfl
  have h2 : hoursErrText.data.head? = some 'B' := rfl
  rw [h1, h2]
  simp

/-- The slow-load warning never reads as the hours error. -/
theorem slowLoadWarnText_ne_hours (ms : Nat) :
    slowLoadWarnText ms ≠ hoursErrText := by
  apply ne_of_data_head
  have h1 : (slowLoadWarnText ms).data.head? = some 'S' :=
    head_append3 "Slow load time (" (toFixed1 ms)
      "s) - aim for under 3 seconds" 'S' rfl
  have h2 : hoursErrText.data.head? = some 'B' := rfl
  rw [h1, h2]
  simp

/-- No SEO issue carries the hours error text. -/
theorem no_hours_in_seo (p : Page) :
    ∀ i ∈ (seoEval p).2, i.text ≠ hoursErrText := by
  intro i hi
  simp only [seoEval, List.mem_append] at hi
  rcases hi with ((((h | h) | h) | h) | h)
  · rw [titleClause] at h
    split at h
    · simp at h
    · split at h
      · simp at h
        subst h
        exact titleLenWarnText_ne_hours _
      · simp at h
        subst h
        decide
  · rw [descClause] at h
    split at h
    · simp at h
    · split at h
      · simp at h
        subst h
        exact descLenWarnText_ne_hours _
      · simp at h
        subst h
        decide
  · rw [h1Clause] at h
    split at h
    · simp at h
    · split at h
      · simp at h
        subst h
        decide
      · simp at h
        subst h
        exact multiH1WarnText_ne_hours _
  · rw [canonicalClause] at h
    split at h
    · simp at h
    · simp at h
      subst h
      decide
  · rw [ogClause] at h
    split at h
    · simp at h
    · simp at h
      subst h
      decide

/-- When the hours signal is present, no Content issue carries the hours
error text. -/
theorem no_hours_in_content (p : Page) (hh : hasHoursB p.bodyText = true) :
    ∀ i ∈ (contentEval p).2, i.text ≠ hoursErrText := by
  intro i hi
  simp only [contentEval, List.mem_append] at hi
  rcases hi with ((((h | h) | h) | h) | h)
  · rw [menuClause] at h
    split at h
    · simp at h
      subst h
      decide
    · split at h
      · simp at h
      · simp at h
        subst h
        decide
  · rw [hh] at h
    simp [hoursClause] at h
  · rw [addressClause] at h
    split at h
    · simp at h
    · simp at h
      subst h
      decide
  · rw [phoneClause] at h
    split at h
    · simp at h
    · simp at h
      subst h
      decide
  · rw [imagesClause] at h
    split at h
    · split at h
      · simp at h
        subst h
        exact altWarnText_ne_hours _ _
      · simp at h
    · simp at h
      subst h
      decide

/-- No Usability issue carries the hours error text. -/
theorem no_hours_in_usability (p : Page) :
    ∀ i ∈ (usabilityEval p).2, i.text ≠ hoursErrText := by
  intro i hi
  simp only [usabilityEval, List.mem_append] at hi
  rcases hi with ((((h | h) | h) | h) | h)
  · rw [orderingClause] at h
    split at h
    · simp at h
    · simp at h
      subst h
      decide
  · rw [reservationClause] at h
    split at h
    · simp at h
    · simp at h
      subst h
      decide
  · rw [socialClause] at h
    split at h
    · simp at h
    · simp at h
      subst h
      decide
  · rw [clickablePhoneClause] at h
    split at h
    · simp at h
    · split at h
      · simp at h
        subst h
        decide
      · simp at h
  · rw [mapsClause] at h
    split at h
    · simp at h
    · simp at h
      subst h
      decide

/-- No Technical issue carries the hours error text. -/
theorem no_hours_in_technical (p : Page) (url : String) (lt : Nat) :
    ∀ i ∈ (technicalEval p url lt).2, i.text ≠ hoursErrText := by
  intro i hi
  simp only [technicalEval, technicalBase, List.mem_append] at hi
  rcases hi with ((((h | h) | h) | h) | h)
  · rw [viewportClause] at h
    split at h
    · simp at h
    · simp at h
      subst h
      decide
  · rw [httpsClause] at h
    split at h
    · simp at h
    · simp at h
      subst h
      decide
  · rw [faviconClause] at h
    split at h
    · simp at h
    · simp at h
      subst h
      decide
  · rw [structuredClause] at h
    split at h
    · simp at h
    · simp at h
      subst h
      decide
  · rw [loadTimeClause] at h
    split at h
    · simp at h
    · split at h
      · simp at h
        subst h
        exact slowLoadWarnText_ne_hours _
      · simp at h

/-- C9: whenever the lower-cased body text contains "hours", "open", "am" or
"pm" as a substring anywhere — including inside unrelated words — the hours
clause awards +5 with no issue, the Content score is at least 5, and the
report's issues never include the "Business hours not found" error. -/
theorem c9_hours_substring (p : Page) (url : String) (lt : Nat)
    (hh : hasHoursB p.bodyText = true) :
    hoursClause (hasHoursB p.bodyText) = (5, []) ∧
    5 ≤ (gradeWebsite p url lt).content.score ∧
    ∀ i ∈ (gradeWebsite p url lt).issues, i.text ≠ hoursErrText := by
  have hclause : hoursClause (hasHoursB p.bodyText) = (5, []) := by
    rw [hh]
    rfl
  refine ⟨hclause, ?_, ?_⟩
  · show 5 ≤ (menuClause p.hasPdfLink (hasMenuB p)).1 +
      (hoursClause (hasHoursB p.bodyText)).1 +
      (addressClause (hasAddressB p.bodyText)).1 +
      (phoneClause (hasPhoneB p)).1 +
      (imagesClause p.imageCount p.imagesWithAlt).1
    rw [hclause]
    omega
  · intro i hi
    rw [gradeWebsite_issues] at hi
    have hi2 := mem_sortIssues.1 hi
    simp only [allIssuesUnsorted, tagCat, List.mem_append, List.mem_map] at hi2
    rcases hi2 with (((⟨j, hj, rfl⟩ | ⟨j, hj, rfl⟩) | ⟨j, hj, rfl⟩) | ⟨j, hj, rfl⟩)
    · exact no_hours_in_seo p j hj
    · exact no_hours_in_content p hh j hj
    · exact no_hours_in_usability p j hj
    · exact no_hours_in_technical p url lt j hj

/-- A bare page whose body text contains "am" only inside the word "family"
(no "hours", "open" or "pm" anywhere), and no other signal at all. -/
def familyPage : Page :=
  { description := ""
    title := ""
    h1Count := 0
    hasCanonical := false
    hasOgTags := false
    hasPdfLink := false
    hasMenuLink := false
    hasMenuImgAlt := false
    hasTelLink := false
    imageCount := 0
    imagesWithAlt := 0
    hasOrderLink := false
    hasDoordashLink := false
    hasUbereatsLink := false
    hasGrubhubLink := false
    hasOpentableLink := false
    hasResyLink := false
    hasFacebookLink := false
    hasInstagramLink := false
    hasTwitterLink := false
    hasTiktokLink := false
    hasMapsIframe := false
    hasMapsGoogleLink := false
    hasGooGlMapsLink := false
    hasViewport := false
    hasIconLink := false
    hasShortcutIconLink := false
    hasStructuredData := false
    bodyText := "welcome to our family style eatery" }

set_option maxRecDepth 1000000 in
/-- C9 witness: on a page whose only hours-ish content is the "am" inside
"family", the hours points are granted and the hours error is absent. -/
theorem c9_hours_substring_witness :
    hasHoursB familyPage.bodyText = true ∧
    hoursClause (hasHoursB familyPage.bodyText) = (5, []) ∧
    5 ≤ (gradeWebsite familyPage "http://family.example" 3000).content.score ∧
    ∀ i ∈ (gradeWebsite familyPage "http://family.example" 3000).issues,
      i.text ≠ hoursErrText := by
  have h := c9_hours_substring familyPage "http://family.example" 3000 (by decide)
  exact ⟨by decide, h.1, h.2.1, h.2.2⟩

end Grader
